import Mathlib

/-!
Verification of the subscription-gate middleware, the subscription
lifecycle endpoints and the user-deletion guard of the
`actionunitmanager` backend, shallowly embedded from the Python source
(`actionunit/middleware.py`, `actionunit/views.py`,
`actionunit/models.py`, `actionunit/serializers.py`).

Dates are modelled as integers (days); `today` is passed explicitly.
Strings are Lean `String`s; the gate compares them exactly as the
Python code does.  The Django request object is modelled as an explicit
record: `request.user` is an `Option`, the `hasattr`/authentication
probe becomes explicit fields, and the ORM's `DoesNotExist` on
`church.subscription` becomes an `Option Subscription`.
-/

namespace ActionUnit

/-- Subscription row as read by the middleware and the views
(`models.Subscription`): `plan` and `status` are CharFields, the date
fields are days. `grace_period_end` is nullable. -/
structure Subscription where
  plan : String
  status : String
  trial_end_date : Int
  current_period_end : Int
  grace_period_end : Option Int := none
  deriving Repr, DecidableEq

/-- The five declared values of `Subscription.STATUS_CHOICES` in
`models.py`. -/
def STATUS_CHOICES : List String :=
  ["trialing", "active", "past_due", "canceled", "unpaid"]

/-- The tenant as the middleware sees it: `church.subscription` either
resolves to a row or raises `Subscription.DoesNotExist` (`none`). -/
structure Church where
  subscription : Option Subscription
  deriving Repr, DecidableEq

/-- The authenticated-user probe of the middleware:
`request.user.is_authenticated` and the presence of a church
association (`hasattr(request.user, 'church')` with a usable church). -/
structure User where
  is_authenticated : Bool
  church : Option Church
  deriving Repr, DecidableEq

/-- The request context the gate inspects: path, HTTP method, and the
optional user attached by the auth layer. -/
structure Request where
  path : String
  method : String
  user : Option User
  deriving Repr, DecidableEq

/-- A `JsonResponse` denial body together with its HTTP status, as
built inside `SubscriptionMiddleware.process_view`. -/
structure Denial where
  error : String
  message : String
  code : String
  httpStatus : Nat
  deriving Repr, DecidableEq

/-- The 402 response of the `canceled`/`unpaid` branch. -/
def terminatedDenial : Denial :=
  { error := "Subscription terminated"
    message := "Your subscription has been terminated. Please contact support."
    code := "SUBSCRIPTION_TERMINATED"
    httpStatus := 402 }

/-- The 402 response of the `past_due` branch. -/
def pastDueDenial : Denial :=
  { error := "Payment past due"
    message := "Your payment is past due. Please update your payment method."
    code := "PAYMENT_PAST_DUE"
    httpStatus := 402 }

/-- The 402 response of the `current_period_end < today` branch. -/
def expiredDenial : Denial :=
  { error := "Subscription period ended"
    message := "Your subscription period has ended. Please renew to continue."
    code := "SUBSCRIPTION_EXPIRED"
    httpStatus := 402 }

/-- The 402 response of the final default-deny branch. -/
def accessDeniedDenial : Denial :=
  { error := "Subscription access denied"
    message := "Unable to verify subscription status."
    code := "SUBSCRIPTION_ACCESS_DENIED"
    httpStatus := 402 }

/-- Python's `str.startswith`, as used on `request.path`: the
character sequence of `p` is a prefix of that of `s`.  (Defined on the
character lists so that concrete instances evaluate by `decide`.) -/
def pathStartsWith (s p : String) : Bool :=
  p.data.isPrefixOf s.data

/-- `SubscriptionMiddleware.process_view` from
`actionunit/middleware.py`: returns `none` to let the view run and
`some d` to short-circuit with the 402 denial `d`.  The branch order is
exactly that of the source: auth-path bypass, static/admin bypass, GET
bypass, unauthenticated/no-church bypass, then the subscription checks
with the `DoesNotExist` handler, then the default deny. -/
def process_view (req : Request) (today : Int) : Option Denial :=
  if pathStartsWith req.path "/api/auth/" then
    none
  else if pathStartsWith req.path "/static/" || pathStartsWith req.path "/admin/" then
    none
  else if req.method = "GET" then
    none
  else
    match req.user with
    | none => none
    | some u =>
      if !u.is_authenticated then none
      else
        match u.church with
        | none => none
        | some church =>
          match church.subscription with
          | none => none
          | some subscription =>
            if subscription.status = "canceled" ∨ subscription.status = "unpaid" then
              some terminatedDenial
            else if subscription.status = "past_due" then
              some pastDueDenial
            else if subscription.current_period_end < today then
              some expiredDenial
            else if subscription.status = "active" ∨ subscription.status = "trialing" then
              none
            else
              some accessDeniedDenial

/-! ## Subscription lifecycle endpoints (`actionunit/views.py`)

Each endpoint is embedded as a state transformer on the acting user's
church's subscription row (`Option Subscription`, `none` meaning the
ORM lookup raises `Subscription.DoesNotExist`), returning the HTTP
response alongside the new state. -/

/-- Response of `initiate_payment`.  The success payload of the source
also carries a hard-coded amount and message; the fields the claims
mention (transaction id and plan) are kept. -/
inductive InitiateResult where
  | badRequest (error : String)
  | ok (transaction_id : String) (plan : String)
  deriving Repr, DecidableEq

/-- `initiate_payment` from `actionunit/views.py`: validates the plan,
computes a prospective period end and a transaction id, and returns a
simulated payment-initiation payload.  The source never reads or
writes the subscription row, so the state passes through unchanged.
`now_ts` stands for `int(timezone.now().timestamp())`. -/
def initiatePaymentCall (plan phone_number : String) (now_ts : Nat) (today : Int)
    (state : Option Subscription) : InitiateResult × Option Subscription :=
  if ¬ (plan = "monthly" ∨ plan = "annual" ∨ plan = "quarterly") then
    (.badRequest "Invalid plan type", state)
  else
    let _period_end : Int :=
      if plan = "monthly" then today + 30
      else if plan = "quarterly" then today + 90
      else today + 365
    let transaction_id := "MTN_" ++ toString now_ts
    let _ := phone_number
    (.ok transaction_id plan, state)

/-- Response of `verify_payment`. -/
inductive VerifyResult where
  | notFound (error : String)
  | ok (subscription : Subscription)
  deriving Repr, DecidableEq

/-- `verify_payment` from `actionunit/views.py`: the provider check is
a stub (the transaction id is read but never used), so whenever a
subscription row exists the call sets `plan` to the requested plan,
`status` to `active`, and `current_period_end` to today plus 30, 90 or
365 days for monthly, quarterly, or any other plan value. -/
def verifyPaymentCall (transaction_id plan : String) (today : Int)
    (state : Option Subscription) : VerifyResult × Option Subscription :=
  let _ := transaction_id
  match state with
  | none => (.notFound "Subscription not found", none)
  | some subscription =>
    let period_end : Int :=
      if plan = "monthly" then today + 30
      else if plan = "quarterly" then today + 90
      else today + 365
    let updated := { subscription with
      plan := plan, status := "active", current_period_end := period_end }
    (.ok updated, some updated)

/-- The data dict built by `create_subscription` before serialization:
church id, plan, status and the two dates. -/
structure SubscriptionData where
  church : Option Nat
  plan : String
  status : String
  trial_end_date : Int
  current_period_end : Int
  deriving Repr, DecidableEq

/-- A subscription row as handed to the database `INSERT`: unlike the
in-memory `Subscription`, the foreign key to the church is explicit
and nullable at this level (the schema declares it NOT NULL). -/
structure SubscriptionRow where
  church : Option Nat
  plan : String
  status : String
  trial_end_date : Int
  current_period_end : Int
  deriving Repr, DecidableEq

/-- `SubscriptionCreateSerializer` from `actionunit/serializers.py`:
its `Meta.fields` list is `[plan, trial_end_date, current_period_end]`,
so validation ignores every other key of the incoming data and the
created row takes model defaults for the rest: `status` defaults to
`trialing` and the church foreign key, having no default, is left
null. -/
def serializerCreate (data : SubscriptionData) : SubscriptionRow :=
  { church := none
    plan := data.plan
    status := "trialing"
    trial_end_date := data.trial_end_date
    current_period_end := data.current_period_end }

/-- The database insert: the schema's NOT NULL / one-to-one constraint
on the church foreign key rejects a row with no church
(`IntegrityError`). -/
def dbInsertSubscription (row : SubscriptionRow) : Except String SubscriptionRow :=
  match row.church with
  | some _ => .ok row
  | none => .error "NOT NULL constraint failed: subscriptions.church_id"

/-- Outcome of `create_subscription`: 400 when a subscription already
exists, 201 with the created row, or an unhandled database error
(surfaced as a 500 by the framework). -/
inductive CreateResult where
  | alreadyExists
  | created (row : SubscriptionRow)
  | dbError (msg : String)
  deriving Repr, DecidableEq

/-- `create_subscription` from `actionunit/views.py`: if the acting
user's church already has a subscription, answer 400; otherwise build
the data dict (free trial, trialing, both end dates 60 days out),
run it through `SubscriptionCreateSerializer` and insert the result. -/
def create_subscription (church_id : Nat) (today : Int)
    (existing : Option Subscription) : CreateResult :=
  match existing with
  | some _ => .alreadyExists
  | none =>
    let trial_end := today + 60
    let subscription_data : SubscriptionData :=
      { church := some church_id
        plan := "free_trial"
        status := "trialing"
        trial_end_date := trial_end
        current_period_end := trial_end }
    match dbInsertSubscription (serializerCreate subscription_data) with
    | .ok row => .created row
    | .error msg => .dbError msg

/-! ## User deletion guard (`actionunit/models.py`, `CustomUser.delete`) -/

/-- The fields of `CustomUser` that its `delete` override reads. -/
structure CustomUser where
  id : Nat
  church : Option Nat
  role : String
  is_active : Bool
  deriving Repr, DecidableEq

/-- The filter `CustomUser.objects.filter(church=self.church,
role=superintendent, is_active=True).exclude(id=self.id)` applied to a
user table. -/
def otherSuperintendents (self : CustomUser) (users : List CustomUser) : List CustomUser :=
  users.filter fun u =>
    u.church == self.church && u.role == "superintendent" && u.is_active && u.id != self.id

/-- `CustomUser.delete` from `actionunit/models.py`: a superintendent
with no other active superintendent in the same church raises
`ValidationError` (modelled as `Except.error`, the table unchanged);
otherwise the row is removed. -/
def deleteUser (self : CustomUser) (users : List CustomUser) :
    Except String (List CustomUser) :=
  if self.role = "superintendent" then
    if (otherSuperintendents self users).isEmpty then
      .error "Cannot delete the last superintendent."
    else
      .ok (users.filter fun u => u.id != self.id)
  else
    .ok (users.filter fun u => u.id != self.id)

/-! ## Concrete sample data used by witnesses and counterexamples -/

/-- A canceled subscription whose period end is still in the future
relative to day 0. -/
def canceledSub : Subscription :=
  { plan := "monthly", status := "canceled",
    trial_end_date := 0, current_period_end := 100 }

/-- A past-due subscription with a future period end. -/
def pastDueSub : Subscription :=
  { plan := "monthly", status := "past_due",
    trial_end_date := 0, current_period_end := 100 }

/-- An active subscription whose period ended on day 5. -/
def lapsedActiveSub : Subscription :=
  { plan := "monthly", status := "active",
    trial_end_date := 0, current_period_end := 5 }

/-- A trialing subscription whose period ends on day 10. -/
def trialingSub : Subscription :=
  { plan := "free_trial", status := "trialing",
    trial_end_date := 10, current_period_end := 10 }

/-- A subscription whose status is outside `STATUS_CHOICES`. -/
def strayStatusSub : Subscription :=
  { plan := "monthly", status := "weird",
    trial_end_date := 0, current_period_end := 100 }

/-- A tenant-scoped write request carrying the given subscription. -/
def writeReq (s : Subscription) : Request :=
  { path := "/api/classes/", method := "POST",
    user := some { is_authenticated := true,
                   church := some { subscription := some s } } }

/-- A write request by an authenticated user whose church has no
subscription row. -/
def noSubWriteReq : Request :=
  { path := "/api/classes/", method := "POST",
    user := some { is_authenticated := true,
                   church := some { subscription := none } } }

/-- A POST to the church-registration endpoint by an authenticated
user whose church has a canceled subscription. -/
def registerReq : Request :=
  { path := "/api/church/register/", method := "POST",
    user := some { is_authenticated := true,
                   church := some { subscription := some canceledSub } } }

section GateTheorems

variable (req : Request) (today : Int) (u : User) (c : Church) (s : Subscription)

/-- **C1.** A non-GET, non-bypassed request by an authenticated user
whose church's subscription has status `canceled` or `unpaid` is
denied with HTTP 402 and code `SUBSCRIPTION_TERMINATED`, for every
value of `current_period_end` (the period end is never consulted on
this branch). -/
theorem gate_terminated_blocks_writes
    (h1 : pathStartsWith req.path "/api/auth/" = false)
    (h2 : pathStartsWith req.path "/static/" = false)
    (h3 : pathStartsWith req.path "/admin/" = false)
    (h4 : req.method ≠ "GET")
    (h5 : req.user = some u) (h6 : u.is_authenticated = true)
    (h7 : u.church = some c) (h8 : c.subscription = some s)
    (h9 : s.status = "canceled" ∨ s.status = "unpaid") :
    process_view req today = some terminatedDenial ∧
      terminatedDenial.httpStatus = 402 ∧
      terminatedDenial.code = "SUBSCRIPTION_TERMINATED" := by
  rcases h9 with h9 | h9 <;>
    simp +decide [process_view, h1, h2, h3, h4, h5, h6, h7, h8, h9,
      terminatedDenial]

/-- Witness for C1: a POST with a canceled subscription whose period
end (day 100) is far in the future of day 0 is still terminated. -/
theorem gate_terminated_blocks_writes_witness :
    process_view (writeReq canceledSub) 0 = some terminatedDenial ∧
      terminatedDenial.httpStatus = 402 ∧
      terminatedDenial.code = "SUBSCRIPTION_TERMINATED" :=
  gate_terminated_blocks_writes (writeReq canceledSub) 0
    { is_authenticated := true, church := some { subscription := some canceledSub } }
    { subscription := some canceledSub } canceledSub
    (by decide) (by decide) (by decide) (by decide)
    rfl rfl rfl rfl (Or.inl rfl)

/-- **C2.** A non-GET, non-bypassed request by an authenticated user
whose church's subscription has status `past_due` is denied with HTTP
402 and code `PAYMENT_PAST_DUE`, for every `current_period_end`. -/
theorem gate_past_due_blocks_writes
    (h1 : pathStartsWith req.path "/api/auth/" = false)
    (h2 : pathStartsWith req.path "/static/" = false)
    (h3 : pathStartsWith req.path "/admin/" = false)
    (h4 : req.method ≠ "GET")
    (h5 : req.user = some u) (h6 : u.is_authenticated = true)
    (h7 : u.church = some c) (h8 : c.subscription = some s)
    (h9 : s.status = "past_due") :
    process_view req today = some pastDueDenial ∧
      pastDueDenial.httpStatus = 402 ∧
      pastDueDenial.code = "PAYMENT_PAST_DUE" := by
  simp +decide [process_view, h1, h2, h3, h4, h5, h6, h7, h8, h9,
    pastDueDenial]

/-- Witness for C2: a POST with a past-due subscription whose period
end (day 100) is in the future of day 0 is still blocked. -/
theorem gate_past_due_blocks_writes_witness :
    process_view (writeReq pastDueSub) 0 = some pastDueDenial ∧
      pastDueDenial.httpStatus = 402 ∧
      pastDueDenial.code = "PAYMENT_PAST_DUE" :=
  gate_past_due_blocks_writes (writeReq pastDueSub) 0
    { is_authenticated := true, church := some { subscription := some pastDueSub } }
    { subscription := some pastDueSub } pastDueSub
    (by decide) (by decide) (by decide) (by decide)
    rfl rfl rfl rfl rfl

/-- **C3.** A non-GET, non-bypassed request by an authenticated user
whose church's subscription has status `active` or `trialing` but
`current_period_end` strictly before today is denied with HTTP 402 and
code `SUBSCRIPTION_EXPIRED`: the period-end check runs after the
terminated/past-due checks and before the active/trialing acceptance,
so expiry overrides the otherwise-allowing status. -/
theorem gate_expired_overrides_status
    (h1 : pathStartsWith req.path "/api/auth/" = false)
    (h2 : pathStartsWith req.path "/static/" = false)
    (h3 : pathStartsWith req.path "/admin/" = false)
    (h4 : req.method ≠ "GET")
    (h5 : req.user = some u) (h6 : u.is_authenticated = true)
    (h7 : u.church = some c) (h8 : c.subscription = some s)
    (h9 : s.status = "active" ∨ s.status = "trialing")
    (hlt : s.current_period_end < today) :
    process_view req today = some expiredDenial ∧
      expiredDenial.httpStatus = 402 ∧
      expiredDenial.code = "SUBSCRIPTION_EXPIRED" := by
  rcases h9 with h9 | h9 <;>
    simp +decide [process_view, h1, h2, h3, h4, h5, h6, h7, h8, h9, hlt,
      expiredDenial]

/-- Witness for C3: an active subscription whose period ended on day 5
is denied as expired on day 7. -/
theorem gate_expired_overrides_status_witness :
    process_view (writeReq lapsedActiveSub) 7 = some expiredDenial ∧
      expiredDenial.httpStatus = 402 ∧
      expiredDenial.code = "SUBSCRIPTION_EXPIRED" :=
  gate_expired_overrides_status (writeReq lapsedActiveSub) 7
    { is_authenticated := true, church := some { subscription := some lapsedActiveSub } }
    { subscription := some lapsedActiveSub } lapsedActiveSub
    (by decide) (by decide) (by decide) (by decide)
    rfl rfl rfl rfl (Or.inl rfl) (by decide)

/-- **C4.** A non-GET, non-bypassed request by an authenticated user
whose church's subscription has status `active` or `trialing` and
`current_period_end` at or after today is allowed: `process_view`
returns `none`. -/
theorem gate_allows_current_subscription
    (h1 : pathStartsWith req.path "/api/auth/" = false)
    (h2 : pathStartsWith req.path "/static/" = false)
    (h3 : pathStartsWith req.path "/admin/" = false)
    (h4 : req.method ≠ "GET")
    (h5 : req.user = some u) (h6 : u.is_authenticated = true)
    (h7 : u.church = some c) (h8 : c.subscription = some s)
    (h9 : s.status = "active" ∨ s.status = "trialing")
    (hge : today ≤ s.current_period_end) :
    process_view req today = none := by
  rcases h9 with h9 | h9 <;>
    simp +decide [process_view, h1, h2, h3, h4, h5, h6, h7, h8, h9,
      show ¬s.current_period_end < today from not_lt.mpr hge]

/-- Witness for C4: a trialing subscription ending on day 10 lets a
POST through on day 0. -/
theorem gate_allows_current_subscription_witness :
    process_view (writeReq trialingSub) 0 = none :=
  gate_allows_current_subscription (writeReq trialingSub) 0
    { is_authenticated := true, church := some { subscription := some trialingSub } }
    { subscription := some trialingSub } trialingSub
    (by decide) (by decide) (by decide) (by decide)
    rfl rfl rfl rfl (Or.inr rfl) (by decide)

/-- **C5.** Every request — whatever its path and method — by an
authenticated user whose church has no subscription row (the ORM
lookup raises `DoesNotExist`) is allowed: `process_view` returns
`none`. -/
theorem gate_allows_missing_subscription
    (h5 : req.user = some u) (h6 : u.is_authenticated = true)
    (h7 : u.church = some c) (h8 : c.subscription = none) :
    process_view req today = none := by
  simp [process_view, h5, h6, h7, h8]

/-- Witness for C5: a POST by a user of a church with no subscription
row passes the gate. -/
theorem gate_allows_missing_subscription_witness :
    process_view noSubWriteReq 0 = none :=
  gate_allows_missing_subscription noSubWriteReq 0
    { is_authenticated := true, church := some { subscription := none } }
    { subscription := none }
    rfl rfl rfl rfl

end GateTheorems

/-- **C6 counterexample.** The claim says the church-registration path
`/api/church/register/` bypasses the gate for every user and every
subscription state.  It does not: a POST to that path by an
authenticated user whose church's subscription is canceled is denied
with `SUBSCRIPTION_TERMINATED`, because the middleware only tests the
`/api/auth/`, `/static/` and `/admin/` path prefixes. -/
theorem register_path_not_bypassed :
    process_view registerReq 0 = some terminatedDenial ∧
      process_view registerReq 0 ≠ none := by
  exact ⟨rfl, by decide⟩

/-- **C6 (amended).** Paths under `/api/auth/` bypass the gate
entirely, for every user and subscription state; a request to
`/api/church/register/` passes the gate only through the
no-authenticated-user check (registration is anonymous), not through
any path bypass. -/
theorem auth_paths_bypass_gate :
    (∀ (req : Request) (today : Int),
        pathStartsWith req.path "/api/auth/" = true →
        process_view req today = none)
    ∧ ∀ (today : Int) (method : String),
        process_view { path := "/api/church/register/", method := method,
                       user := none } today = none := by
  constructor
  · intro req today h
    simp [process_view, h]
  · intro today method
    by_cases hm : method = "GET" <;>
      simp +decide [process_view, hm]

/-- Witness for the amended C6: a POST to the login endpoint with a
canceled subscription still passes, and an anonymous POST to the
registration endpoint passes. -/
theorem auth_paths_bypass_gate_witness :
    process_view { path := "/api/auth/login/", method := "POST",
                   user := some { is_authenticated := true,
                                  church := some { subscription := some canceledSub } } } 0 = none ∧
    process_view { path := "/api/church/register/", method := "POST",
                   user := none } 0 = none :=
  ⟨auth_paths_bypass_gate.1 _ 0 (by decide), auth_paths_bypass_gate.2 0 "POST"⟩

/-- **C7 counterexample.** The claim says a call to initiate-payment
transitions the church's subscription to status `active` with a fresh
period end.  It does not: `initiate_payment` never reads or writes the
subscription row, so after the call a canceled subscription is
unchanged — still `canceled`, period end still 100, not `0 + 30`. -/
theorem initiate_payment_changes_nothing :
    (initiatePaymentCall "monthly" "0244000000" 1700000000 0 (some canceledSub)).2
        = some canceledSub ∧
      canceledSub.status ≠ "active" ∧
      canceledSub.current_period_end ≠ 0 + 30 := by
  refine ⟨?_, by decide, by decide⟩
  rfl

/-- **C7 (amended).** Only verify-payment performs the transition: for
every existing subscription and every transaction id, verify-payment
with plan `monthly`/`quarterly`/`annual` succeeds (the provider check
is a stub) and rewrites the row to status `active`, the requested
plan, and `current_period_end = today + d` with `d` = 30/90/365;
initiate-payment leaves the subscription state unchanged for every
input. -/
theorem verify_payment_activates
    (sub : Subscription) (transaction_id plan phone_number : String)
    (now_ts : Nat) (today : Int)
    (hplan : plan = "monthly" ∨ plan = "quarterly" ∨ plan = "annual") :
    (verifyPaymentCall transaction_id plan today (some sub) =
      (VerifyResult.ok
        { sub with plan := plan, status := "active",
                   current_period_end := today +
                     (if plan = "monthly" then 30
                      else if plan = "quarterly" then 90 else 365) },
       some
        { sub with plan := plan, status := "active",
                   current_period_end := today +
                     (if plan = "monthly" then 30
                      else if plan = "quarterly" then 90 else 365) }))
    ∧ (initiatePaymentCall plan phone_number now_ts today (some sub)).2 = some sub := by
  constructor
  · rcases hplan with h | h | h <;> subst h <;>
      simp +decide [verifyPaymentCall]
  · unfold initiatePaymentCall
    split <;> rfl

/-- Witness for the amended C7: verifying a quarterly payment on day 0
for a canceled subscription reactivates it until day 90, and the
preceding initiate-payment call did not touch it. -/
theorem verify_payment_activates_witness :
    (verifyPaymentCall "MTN_1700000000" "quarterly" 0 (some canceledSub) =
      (VerifyResult.ok
        { canceledSub with plan := "quarterly", status := "active",
                           current_period_end := (0 : Int) +
                             (if ("quarterly" : String) = "monthly" then 30
                              else if ("quarterly" : String) = "quarterly" then 90
                              else 365) },
       some
        { canceledSub with plan := "quarterly", status := "active",
                           current_period_end := (0 : Int) +
                             (if ("quarterly" : String) = "monthly" then 30
                              else if ("quarterly" : String) = "quarterly" then 90
                              else 365) }))
    ∧ (initiatePaymentCall "quarterly" "0244000000" 1700000000 0 (some canceledSub)).2
        = some canceledSub :=
  verify_payment_activates canceledSub "MTN_1700000000" "quarterly" "0244000000"
    1700000000 0 (Or.inr (Or.inl rfl))

/-- The Bool predicate of `otherSuperintendents` matched with its
propositional reading. -/
lemma otherSuperintendents_pred (self u : CustomUser) :
    (u.church == self.church && u.role == "superintendent" &&
        u.is_active && u.id != self.id) = true ↔
      (u.church = self.church ∧ u.role = "superintendent" ∧
        u.is_active = true ∧ u.id ≠ self.id) := by
  simp [Bool.and_assoc, and_assoc]

/-- **C8.** Deleting a user with role `superintendent` succeeds only
when it is not the last active superintendent of its church: if no
other active superintendent of the same church exists, `delete` raises
`ValidationError` (no row is removed); if one exists, the deletion
proceeds and removes exactly that user's row. -/
theorem delete_last_superintendent_guard
    (self : CustomUser) (users : List CustomUser)
    (hrole : self.role = "superintendent") :
    ((∀ u ∈ users, ¬(u.church = self.church ∧ u.role = "superintendent" ∧
          u.is_active = true ∧ u.id ≠ self.id)) →
        deleteUser self users = .error "Cannot delete the last superintendent.")
    ∧ ((∃ u ∈ users, u.church = self.church ∧ u.role = "superintendent" ∧
          u.is_active = true ∧ u.id ≠ self.id) →
        deleteUser self users = .ok (users.filter fun u => u.id != self.id)) := by
  constructor
  · intro hall
    have hnil : otherSuperintendents self users = [] := by
      apply List.filter_eq_nil_iff.mpr
      intro u hu
      rw [otherSuperintendents_pred]
      exact hall u hu
    simp [deleteUser, hrole, hnil]
  · rintro ⟨w, hw, hprop⟩
    have hmem : w ∈ otherSuperintendents self users :=
      List.mem_filter.mpr ⟨hw, (otherSuperintendents_pred self w).mpr hprop⟩
    have hne : otherSuperintendents self users ≠ [] := by
      intro h0
      rw [h0] at hmem
      exact List.not_mem_nil w hmem
    simp [deleteUser, hrole, hne]

/-- Witness for C8: with two active superintendents of church 1,
deleting the first succeeds and leaves the second. -/
theorem delete_last_superintendent_guard_witness :
    deleteUser { id := 1, church := some 1, role := "superintendent", is_active := true }
        [{ id := 1, church := some 1, role := "superintendent", is_active := true },
         { id := 2, church := some 1, role := "superintendent", is_active := true }]
      = .ok [{ id := 2, church := some 1, role := "superintendent", is_active := true }] := by
  have h := delete_last_superintendent_guard
    { id := 1, church := some 1, role := "superintendent", is_active := true }
    [{ id := 1, church := some 1, role := "superintendent", is_active := true },
     { id := 2, church := some 1, role := "superintendent", is_active := true }]
    rfl
  have h2 := h.2 ⟨{ id := 2, church := some 1, role := "superintendent", is_active := true },
    by decide, by decide⟩
  rw [h2]
  rfl

/-- Exhaustive case analysis of the gate once the request reaches the
subscription checks: the outcome is allow, or one of the four denials,
each tied to the branch condition that produced it. -/
lemma process_view_subscription_cases
    (req : Request) (today : Int) (u : User) (c : Church) (s : Subscription)
    (h5 : req.user = some u) (h6 : u.is_authenticated = true)
    (h7 : u.church = some c) (h8 : c.subscription = some s) :
    process_view req today = none ∨
    (process_view req today = some terminatedDenial ∧
      (s.status = "canceled" ∨ s.status = "unpaid")) ∨
    (process_view req today = some pastDueDenial ∧ s.status = "past_due") ∨
    (process_view req today = some expiredDenial ∧ s.current_period_end < today) ∨
    (process_view req today = some accessDeniedDenial ∧
      s.status ≠ "canceled" ∧ s.status ≠ "unpaid" ∧ s.status ≠ "past_due" ∧
      ¬ s.current_period_end < today ∧ s.status ≠ "active" ∧ s.status ≠ "trialing") := by
  by_cases h1 : pathStartsWith req.path "/api/auth/" = true
  · exact Or.inl (by simp [process_view, h1])
  rw [Bool.not_eq_true] at h1
  by_cases h2 : (pathStartsWith req.path "/static/" || pathStartsWith req.path "/admin/") = true
  · exact Or.inl (by simp [process_view, h1, h2])
  rw [Bool.not_eq_true] at h2
  by_cases h3 : req.method = "GET"
  · exact Or.inl (by simp [process_view, h1, h2, h3])
  by_cases h9 : s.status = "canceled" ∨ s.status = "unpaid"
  · exact Or.inr (Or.inl
      ⟨by simp [process_view, h1, h2, h3, h5, h6, h7, h8, h9], h9⟩)
  by_cases h10 : s.status = "past_due"
  · exact Or.inr (Or.inr (Or.inl
      ⟨by simp [process_view, h1, h2, h3, h5, h6, h7, h8, h9, h10], h10⟩))
  by_cases hlt : s.current_period_end < today
  · exact Or.inr (Or.inr (Or.inr (Or.inl
      ⟨by simp [process_view, h1, h2, h3, h5, h6, h7, h8, h9, h10, hlt], hlt⟩)))
  by_cases h11 : s.status = "active" ∨ s.status = "trialing"
  · exact Or.inl
      (by simp [process_view, h1, h2, h3, h5, h6, h7, h8, h9, h10, hlt, h11])
  push_neg at h9 h11
  exact Or.inr (Or.inr (Or.inr (Or.inr
    ⟨by simp [process_view, h1, h2, h3, h5, h6, h7, h8, h9.1, h9.2, h10, hlt,
        h11.1, h11.2],
      h9.1, h9.2, h10, hlt, h11.1, h11.2⟩)))

/-- **C9.** The default-deny fallback is dead code for well-formed
rows: whenever the subscription's status is one of the five values of
`STATUS_CHOICES`, the gate never answers `SUBSCRIPTION_ACCESS_DENIED`;
conversely, the fallback fires only for a status outside the declared
choices whose `current_period_end` has not yet passed. -/
theorem gate_default_deny_unreachable
    (req : Request) (today : Int) (u : User) (c : Church) (s : Subscription)
    (h5 : req.user = some u) (h6 : u.is_authenticated = true)
    (h7 : u.church = some c) (h8 : c.subscription = some s) :
    (s.status ∈ STATUS_CHOICES → process_view req today ≠ some accessDeniedDenial)
    ∧ (process_view req today = some accessDeniedDenial →
        s.status ∉ STATUS_CHOICES ∧ ¬ s.current_period_end < today) := by
  have hc := process_view_subscription_cases req today u c s h5 h6 h7 h8
  constructor
  · intro hs hEq
    rcases hc with h | ⟨h, hst⟩ | ⟨h, hst⟩ | ⟨h, hlt⟩ | ⟨h, hne⟩
    · rw [h] at hEq
      exact Option.noConfusion hEq
    · rw [h] at hEq
      simp +decide [terminatedDenial, accessDeniedDenial] at hEq
    · rw [h] at hEq
      simp +decide [pastDueDenial, accessDeniedDenial] at hEq
    · rw [h] at hEq
      simp +decide [expiredDenial, accessDeniedDenial] at hEq
    · simp only [STATUS_CHOICES, List.mem_cons, List.not_mem_nil, or_false] at hs
      rcases hne with ⟨hc1, hc2, hc3, _, hc5, hc6⟩
      rcases hs with hs | hs | hs | hs | hs
      · exact hc6 hs
      · exact hc5 hs
      · exact hc3 hs
      · exact hc1 hs
      · exact hc2 hs
  · intro hEq
    rcases hc with h | ⟨h, hst⟩ | ⟨h, hst⟩ | ⟨h, hlt⟩ | ⟨h, hne⟩
    · rw [h] at hEq
      exact Option.noConfusion hEq
    · rw [h] at hEq
      simp +decide [terminatedDenial, accessDeniedDenial] at hEq
    · rw [h] at hEq
      simp +decide [pastDueDenial, accessDeniedDenial] at hEq
    · rw [h] at hEq
      simp +decide [expiredDenial, accessDeniedDenial] at hEq
    · rcases hne with ⟨hc1, hc2, hc3, hc4, hc5, hc6⟩
      refine ⟨?_, hc4⟩
      simp only [STATUS_CHOICES, List.mem_cons, List.not_mem_nil, or_false]
      push_neg
      exact ⟨hc6, hc5, hc3, hc1, hc2⟩

/-- Witness for C9: a trialing subscription never hits the fallback,
while a subscription whose status is the undeclared string `weird`
with a future period end does, and the theorem then reports that
status as outside the declared choices. -/
theorem gate_default_deny_unreachable_witness :
    process_view (writeReq trialingSub) 0 ≠ some accessDeniedDenial ∧
      strayStatusSub.status ∉ STATUS_CHOICES :=
  ⟨(gate_default_deny_unreachable (writeReq trialingSub) 0
      { is_authenticated := true, church := some { subscription := some trialingSub } }
      { subscription := some trialingSub } trialingSub
      rfl rfl rfl rfl).1 (by decide),
   ((gate_default_deny_unreachable (writeReq strayStatusSub) 0
      { is_authenticated := true, church := some { subscription := some strayStatusSub } }
      { subscription := some strayStatusSub } strayStatusSub
      rfl rfl rfl rfl).2 (by decide)).1⟩

/-- **C10 (code bug).** The create endpoint is meant to answer 201
with a trialing free-trial subscription for the acting user's church
(both end dates 60 days out); but `SubscriptionCreateSerializer`
declares only `plan`, `trial_end_date` and `current_period_end`, so
the church id the view passes is dropped, the inserted row has no
church, and the NOT NULL constraint on the church foreign key rejects
the insert: for church 1 on day 0 with no existing subscription the
call ends in a database error instead of a 201 creation.  The
already-exists half of the claim does hold: with an existing
subscription the call answers 400 and writes nothing. -/
theorem create_subscription_drops_church :
    create_subscription 1 0 none =
        .dbError "NOT NULL constraint failed: subscriptions.church_id" ∧
      (serializerCreate { church := some 1, plan := "free_trial", status := "trialing",
                          trial_end_date := 60, current_period_end := 60 }).church = none ∧
      create_subscription 1 0 (some trialingSub) = .alreadyExists :=
  ⟨rfl, rfl, rfl⟩

end ActionUnit
